import Mathlib

/-!
Verification of the gRPC stream layer of the Firestore client
(`Firestore/core/src/firebase/firestore/remote/grpc_stream.h`).

The repository provides the header `grpc_stream.h`; the bodies declared there
and defined in `grpc_stream.cc` are not part of the sources.  Definitions whose
bodies appear in the header (`IsFinished`, `UnsetObserver`, `Execute`, the data
member declaration order) are translated directly from it; the remaining
operations (`BufferedWriter::EnqueueWrite`/`DequeueNextWrite`/`TryStartWrite`,
`GrpcStream::Finish`, `WriteAndFinish`, `FastFinishOperationsBlocking` and the
completion callbacks) are modelled from the specification and the header's
documentation comments, and each such definition says so in its doc comment.
-/

namespace GrpcStreamVerif

/-- Payloads (`grpc::ByteBuffer`) are opaque byte buffers; modelled as
natural-number identifiers, since this layer never inspects their contents. -/
abbrev ByteBuffer := Nat

/-- A `StreamWrite` operation, carrying the payload it will transmit. -/
structure StreamWrite where
  payload : ByteBuffer
  deriving DecidableEq, Repr

/-- State of `internal::BufferedWriter` (grpc_stream.h, lines 62-82):
a queue of pending payloads and the single `has_active_write_` flag. -/
structure BufferedWriter where
  queue_ : List ByteBuffer
  has_active_write_ : Bool
  deriving DecidableEq, Repr

/-- A freshly constructed `BufferedWriter`: empty queue, no active write
(grpc_stream.h, lines 64-65 and the member initializers at lines 80-81). -/
def BufferedWriter.init : BufferedWriter :=
  { queue_ := [], has_active_write_ := false }

/-- Modelled from the spec: `BufferedWriter::TryStartWrite` (declared at
grpc_stream.h line 75; its body in grpc_stream.cc is not in the sources).
Per the header comment (lines 48-55) and spec section 4.1: if no write is
active and the queue is non-empty, pop the head, create a `StreamWrite` for it
and mark the buffer active; otherwise do nothing and return no operation. -/
def BufferedWriter.TryStartWrite (b : BufferedWriter) :
    Option StreamWrite × BufferedWriter :=
  if b.has_active_write_ then (none, b)
  else
    match b.queue_ with
    | [] => (none, b)
    | w :: rest => (some { payload := w }, { queue_ := rest, has_active_write_ := true })

/-- Modelled from the spec: `BufferedWriter::EnqueueWrite` (declared at
grpc_stream.h line 69; body in grpc_stream.cc is not in the sources).
Appends the payload to the tail of the queue, then tries to start a write;
returns the newly created operation if this write became active, none
otherwise (header comment, lines 67-68; spec section 4.1). -/
def BufferedWriter.EnqueueWrite (b : BufferedWriter) (write : ByteBuffer) :
    Option StreamWrite × BufferedWriter :=
  BufferedWriter.TryStartWrite { b with queue_ := b.queue_ ++ [write] }

/-- Modelled from the spec: `BufferedWriter::DequeueNextWrite` (declared at
grpc_stream.h line 72; body in grpc_stream.cc is not in the sources).
Called once per write-operation completion: clears the active flag, then makes
the next queued write active, if any (header comment, lines 70-72 and 53-55;
spec section 4.1). -/
def BufferedWriter.DequeueNextWrite (b : BufferedWriter) :
    Option StreamWrite × BufferedWriter :=
  BufferedWriter.TryStartWrite { b with has_active_write_ := false }

/-- An external event observed by the `BufferedWriter`: either the caller
enqueues a payload, or the currently active write operation completes. -/
inductive WriterEvent
  | enq (p : ByteBuffer)
  | complete
  deriving DecidableEq, Repr

/-- A run of the `BufferedWriter`: its state, plus the history of payloads for
which a `StreamWrite` operation was issued (in issue order) and the count of
write-operation completions observed so far. -/
structure WriterRun where
  bw : BufferedWriter
  issued : List ByteBuffer
  completed : Nat
  deriving DecidableEq, Repr

/-- The initial run: a fresh buffer, nothing issued, nothing completed. -/
def WriterRun.init : WriterRun :=
  { bw := BufferedWriter.init, issued := [], completed := 0 }

/-- Record the payload of a newly issued operation, if one was issued. -/
def recordIssue (issued : List ByteBuffer) : Option StreamWrite → List ByteBuffer
  | none => issued
  | some op => issued ++ [op.payload]

/-- One step of a run: `enq p` calls `EnqueueWrite p`; `complete` is the
completion of the active write operation, upon which the stream controller
calls `DequeueNextWrite` (spec section 4.1). -/
def WriterRun.step (r : WriterRun) : WriterEvent → WriterRun
  | .enq p =>
    let res := r.bw.EnqueueWrite p
    { bw := res.2, issued := recordIssue r.issued res.1, completed := r.completed }
  | .complete =>
    let res := r.bw.DequeueNextWrite
    { bw := res.2, issued := recordIssue r.issued res.1, completed := r.completed + 1 }

/-- Run a sequence of events from a given state. -/
def WriterRun.run (r : WriterRun) : List WriterEvent → WriterRun
  | [] => r
  | e :: es => (r.step e).run es

/-- A `complete` event is only valid while a write is actually active:
`DequeueNextWrite` is called exactly once per write-operation completion
(spec section 4.1), and gRPC completes only operations that were issued. -/
def eventOK (r : WriterRun) : WriterEvent → Bool
  | .enq _ => true
  | .complete => r.bw.has_active_write_

/-- Validity of a whole event trace from a given run state. -/
def validFrom (r : WriterRun) : List WriterEvent → Bool
  | [] => true
  | e :: es => eventOK r e && validFrom (r.step e) es

/-- The payload carried by a single event, if any. -/
def enqOf : WriterEvent → List ByteBuffer
  | .enq p => [p]
  | .complete => []

/-- The payloads passed to `EnqueueWrite` during a trace, in call order. -/
def enqueuedOf : List WriterEvent → List ByteBuffer
  | [] => []
  | e :: es => enqOf e ++ enqueuedOf es

/-- The number of write operations currently in flight: operations issued
minus completions observed. -/
def activeCount (r : WriterRun) : Nat :=
  r.issued.length - r.completed

/-- The inductive invariant of a `BufferedWriter` run: the number of issued
operations exceeds the completion count by exactly the active flag, and an
idle buffer has an empty queue. -/
def WriterInv (r : WriterRun) : Prop :=
  r.issued.length = r.completed + (cond r.bw.has_active_write_ 1 0) ∧
  (r.bw.has_active_write_ = false → r.bw.queue_ = [])

/-- The kinds of `StreamOperation` a `GrpcStream` issues against the call:
start, read, write, and (client- or server-initiated) finish
(grpc_stream.h, `StreamOperation` callbacks at lines 157-165). -/
inductive StreamOperationKind
  | opStart
  | opRead
  | opWrite
  | opFinish
  deriving DecidableEq, Repr

/-- Notifications delivered to the `GrpcStreamObserver` listener:
stream opened, message received, or terminal error
(spec section 6, listener capability). -/
inductive Notification
  | onOpen
  | onRead (message : ByteBuffer)
  | onError
  deriving DecidableEq, Repr

/-- State of a `GrpcStream` (grpc_stream.h, data members at lines 205-215):
the nullable observer association `observer_` (modelled as an `Option`), the
buffered writer, the in-flight operation set `operations_` (modelled by the
kinds of the registered operations, in registration order), and the
`is_finishing_` flag. -/
structure GrpcStream where
  observer_ : Option Unit
  buffered_writer_ : BufferedWriter
  operations_ : List StreamOperationKind
  is_finishing_ : Bool
  deriving DecidableEq, Repr

/-- `GrpcStream::UnsetObserver` (grpc_stream.h, lines 177-179):
`observer_ = nullptr;`. -/
def GrpcStream.UnsetObserver (s : GrpcStream) : GrpcStream :=
  { s with observer_ := none }

/-- `GrpcStream::IsFinished` (grpc_stream.h, lines 146-148):
`return observer_ == nullptr;`. -/
def GrpcStream.IsFinished (s : GrpcStream) : Bool :=
  s.observer_.isNone

/-- `GrpcStream::Execute` (grpc_stream.h, lines 192-195): executes the
operation and registers it in `operations_` (`operations_.push_back`). -/
def GrpcStream.Execute (s : GrpcStream) (operation : StreamOperationKind) : GrpcStream :=
  { s with operations_ := s.operations_ ++ [operation] }

/-- Modelled from the spec: `GrpcStream::RemoveOperation` (declared at
grpc_stream.h line 165; body in grpc_stream.cc is not in the sources): the
removal hook with which a completed operation deregisters itself from the
in-flight set (spec section 4.2, in-flight tracking). -/
def removeFirst : List StreamOperationKind → StreamOperationKind → List StreamOperationKind
  | [], _ => []
  | k :: rest, t => if k = t then rest else k :: removeFirst rest t

/-- Modelled from the spec: `GrpcStream::OnStart` (declared at grpc_stream.h
line 159; body in grpc_stream.cc is not in the sources).  On open-completion
success the stream notifies the listener that the stream opened and issues the
first read operation; the completed start operation deregisters.  Notifications
are delivered only while the listener association is live (spec sections 4.2
and 6). -/
def GrpcStream.OnStart (s : GrpcStream) : GrpcStream × List Notification :=
  match s.observer_ with
  | some _ =>
    (GrpcStream.Execute
      { s with operations_ := removeFirst s.operations_ .opStart } .opRead, [.onOpen])
  | none => ({ s with operations_ := removeFirst s.operations_ .opStart }, [])

/-- Modelled from the spec: `GrpcStream::OnRead` (declared at grpc_stream.h
line 160; body in grpc_stream.cc is not in the sources).  Each read completion
delivers the received payload to the listener and immediately re-issues the
next read; the completed read operation deregisters (spec section 4.2, read
loop). -/
def GrpcStream.OnRead (s : GrpcStream) (message : ByteBuffer) :
    GrpcStream × List Notification :=
  match s.observer_ with
  | some _ =>
    (GrpcStream.Execute
      { s with operations_ := removeFirst s.operations_ .opRead } .opRead,
     [.onRead message])
  | none => ({ s with operations_ := removeFirst s.operations_ .opRead }, [])

/-- Modelled from the spec: `GrpcStream::OnWrite` (declared at grpc_stream.h
line 161; body in grpc_stream.cc is not in the sources).  On write completion
the buffer makes the next queued write active via `DequeueNextWrite`, issuing
its operation if there is one; the completed write deregisters.  A write
completion produces no listener notification (spec section 4.1). -/
def GrpcStream.OnWrite (s : GrpcStream) : GrpcStream × List Notification :=
  let res := s.buffered_writer_.DequeueNextWrite
  let s1 := { s with buffered_writer_ := res.2,
                     operations_ := removeFirst s.operations_ .opWrite }
  (match res.1 with
   | some _ => GrpcStream.Execute s1 .opWrite
   | none => s1, [])

/-- Modelled from the spec: `GrpcStream::OnOperationFailed` (declared at
grpc_stream.h line 162; body in grpc_stream.cc is not in the sources).
Uniform failure path: if the stream is not already finishing, mark it
finishing and issue an internal finish operation against the call, whose
completion will learn the terminating status; if already finishing, do
nothing further.  The failure itself produces no direct notification
(spec section 4.2, operation-failure handling). -/
def GrpcStream.OnOperationFailed (s : GrpcStream) : GrpcStream × List Notification :=
  if s.is_finishing_ then (s, [])
  else (GrpcStream.Execute { s with is_finishing_ := true } .opFinish, [])

/-- Modelled from the spec: `GrpcStream::OnFinishedByServer` (declared at
grpc_stream.h line 163; body in grpc_stream.cc is not in the sources).
Completion of the internal finish issued by the failure path: notifies the
listener of a terminal, unrecoverable error (if the association is still
live) and clears the association, so no further notification can ever fire;
the finish operation deregisters (spec sections 4.2 and 8). -/
def GrpcStream.OnFinishedByServer (s : GrpcStream) : GrpcStream × List Notification :=
  match s.observer_ with
  | some _ =>
    ({ s with observer_ := none, operations_ := removeFirst s.operations_ .opFinish },
     [.onError])
  | none => ({ s with operations_ := removeFirst s.operations_ .opFinish }, [])

/-- A completion event arriving from the gRPC completion queue: which
operation completed, and how. -/
inductive CompletionEvent
  | startCompleted
  | readCompleted (message : ByteBuffer)
  | writeCompleted
  | failed
  | serverFinished
  deriving DecidableEq, Repr

/-- Dispatch of one completion event to the corresponding callback
(spec section 4.2; the callbacks are declared at grpc_stream.h lines 157-165). -/
def GrpcStream.handleCompletion (s : GrpcStream) : CompletionEvent → GrpcStream × List Notification
  | .startCompleted => s.OnStart
  | .readCompleted m => s.OnRead m
  | .writeCompleted => s.OnWrite
  | .failed => s.OnOperationFailed
  | .serverFinished => s.OnFinishedByServer

/-- Run a sequence of completion events, collecting all notifications. -/
def GrpcStream.runCompletions : GrpcStream → List CompletionEvent → GrpcStream × List Notification
  | s, [] => (s, [])
  | s, e :: es =>
    let r1 := s.handleCompletion e
    let r2 := GrpcStream.runCompletions r1.1 es
    (r2.1, r1.2 ++ r2.2)

/-- Modelled from the spec: the per-operation handling inside
`GrpcStream::FastFinishOperationsBlocking`: each outstanding operation comes
back from the completion queue with a cancelled (non-success) status and is
dispatched through the uniform failure path (spec sections 4.2 and 5,
cancellation). -/
def GrpcStream.drainCancelled : GrpcStream → List StreamOperationKind → GrpcStream × List Notification
  | s, [] => (s, [])
  | s, _ :: pending =>
    let r1 := s.OnOperationFailed
    let r2 := GrpcStream.drainCancelled r1.1 pending
    (r2.1, r1.2 ++ r2.2)

/-- Modelled from the spec: `GrpcStream::FastFinishOperationsBlocking`
(grpc_stream.h, lines 181-190; body in grpc_stream.cc is not in the sources).
Blocks until all the operations issued by this stream come out of the gRPC
completion queue; each comes back cancelled, is handled, and deregisters.
When the function returns, the in-flight operation set is empty. -/
def GrpcStream.FastFinishOperationsBlocking (s : GrpcStream) : GrpcStream × List Notification :=
  GrpcStream.drainCancelled { s with operations_ := [] } s.operations_

/-- Modelled from the spec: `GrpcStream::Finish` (declared at grpc_stream.h
lines 125-132; body in grpc_stream.cc is not in the sources).  Clears the
listener association first (so no further notifications can fire), marks the
stream finishing, cancels the context (so outstanding operations complete
quickly), then blocks until every in-flight operation has completed and
deregistered (spec section 4.2). -/
def GrpcStream.Finish (s : GrpcStream) : GrpcStream × List Notification :=
  let s1 := s.UnsetObserver
  let s2 := { s1 with is_finishing_ := true }
  s2.FastFinishOperationsBlocking

/-- Modelled from the spec: `GrpcStream::WriteAndFinish` (grpc_stream.h,
lines 134-144; body in grpc_stream.cc is not in the sources).  Issues the
final write through the buffer; the final write is best-effort:
`writeCameThrough` models the environment outcome of whether the write
operation for the payload completed successfully before cancellation was
issued.  If it did, the write completion is processed; either way the
`Finish` protocol then runs.  The return value indicates whether the final
write went through (spec section 4.2). -/
def GrpcStream.WriteAndFinish (s : GrpcStream) (message : ByteBuffer)
    (writeCameThrough : Bool) : Bool × (GrpcStream × List Notification) :=
  let res := s.buffered_writer_.EnqueueWrite message
  let s1 :=
    match res.1 with
    | some _ => GrpcStream.Execute { s with buffered_writer_ := res.2 } .opWrite
    | none => { s with buffered_writer_ := res.2 }
  if writeCameThrough then
    let r2 := s1.OnWrite
    let r3 := r2.1.Finish
    (true, (r3.1, r2.2 ++ r3.2))
  else
    let r3 := s1.Finish
    (false, (r3.1, r3.2))

/-- The data members of `GrpcStream`, named in their declaration order in
grpc_stream.h (lines 205-215). -/
inductive GrpcStreamMember
  | context_
  | call_
  | firestore_queue_
  | observer_
  | buffered_writer_
  | operations_
  | is_finishing_
  deriving DecidableEq, Repr

/-- The declaration order of the data members of `GrpcStream`
(grpc_stream.h, lines 205-215): `context_` first, then `call_`, then the
rest. -/
def grpcStreamDeclarationOrder : List GrpcStreamMember :=
  [.context_, .call_, .firestore_queue_, .observer_, .buffered_writer_,
   .operations_, .is_finishing_]

/-- C++ destroys the non-static data members of a class in reverse order of
declaration; this is the language rule the header's comment (grpc_stream.h,
lines 197-204) relies on for releasing `call_` before `context_`. -/
def grpcStreamDestructionOrder : List GrpcStreamMember :=
  grpcStreamDeclarationOrder.reverse

/-- Position of a data member in the destruction sequence of `GrpcStream`. -/
def destructionIndex (m : GrpcStreamMember) : Nat :=
  grpcStreamDestructionOrder.findIdx (fun x => decide (x = m))

theorem writerInv_init : WriterInv WriterRun.init := by
  constructor <;> simp [WriterRun.init, BufferedWriter.init]

theorem writerInv_step (r : WriterRun) (e : WriterEvent)
    (hv : eventOK r e = true) (h : WriterInv r) :
    WriterInv (r.step e) ∧
    (r.step e).issued ++ (r.step e).bw.queue_ =
      (r.issued ++ r.bw.queue_) ++ enqOf e := by
  obtain ⟨hlen, hidle⟩ := h
  cases e with
  | enq p =>
    by_cases hact : r.bw.has_active_write_ = true
    · refine ⟨⟨?_, ?_⟩, ?_⟩ <;>
        simp [WriterRun.step, BufferedWriter.EnqueueWrite, BufferedWriter.TryStartWrite,
          hact, recordIssue, WriterInv, hlen, enqOf]
    · have hq : r.bw.queue_ = [] := hidle (by simpa using hact)
      refine ⟨⟨?_, ?_⟩, ?_⟩ <;>
        simp [WriterRun.step, BufferedWriter.EnqueueWrite, BufferedWriter.TryStartWrite,
          eq_false_of_ne_true hact, hq, recordIssue, WriterInv, hlen, enqOf]
  | complete =>
    have hact : r.bw.has_active_write_ = true := by simpa [eventOK] using hv
    cases hq : r.bw.queue_ with
    | nil =>
      refine ⟨⟨?_, ?_⟩, ?_⟩ <;>
        simp [WriterRun.step, BufferedWriter.DequeueNextWrite, BufferedWriter.TryStartWrite,
          hq, recordIssue, WriterInv, hlen, hact, enqOf]
    | cons w rest =>
      refine ⟨⟨?_, ?_⟩, ?_⟩ <;>
        simp [WriterRun.step, BufferedWriter.DequeueNextWrite, BufferedWriter.TryStartWrite,
          hq, recordIssue, WriterInv, hlen, hact, enqOf]

theorem writerInv_run (es : List WriterEvent) :
    ∀ r : WriterRun, WriterInv r → validFrom r es = true →
    WriterInv (r.run es) ∧
    (r.run es).issued ++ (r.run es).bw.queue_ =
      (r.issued ++ r.bw.queue_) ++ enqueuedOf es := by
  induction es with
  | nil => intro r h _; simpa [WriterRun.run, enqueuedOf] using h
  | cons e es ih =>
    intro r h hv
    rw [validFrom, Bool.and_eq_true] at hv
    obtain ⟨hstep, horder⟩ := writerInv_step r e hv.1 h
    obtain ⟨hinv, hrest⟩ := ih (r.step e) hstep hv.2
    refine ⟨by simpa [WriterRun.run] using hinv, ?_⟩
    simp [WriterRun.run, hrest, horder, enqueuedOf]

theorem drainCancelled_finishing (l : List StreamOperationKind) :
    ∀ s : GrpcStream, s.is_finishing_ = true → GrpcStream.drainCancelled s l = (s, []) := by
  induction l with
  | nil => intro s _; rfl
  | cons k rest ih =>
    intro s h
    simp [GrpcStream.drainCancelled, GrpcStream.OnOperationFailed, h, ih s h]

theorem finish_eq (s : GrpcStream) :
    s.Finish = ({ s with observer_ := none, is_finishing_ := true, operations_ := [] }, []) := by
  simp [GrpcStream.Finish, GrpcStream.UnsetObserver, GrpcStream.FastFinishOperationsBlocking,
    drainCancelled_finishing]

theorem handleCompletion_silent (s : GrpcStream) (e : CompletionEvent)
    (h : s.observer_ = none) :
    (s.handleCompletion e).2 = [] ∧ (s.handleCompletion e).1.observer_ = none := by
  cases e with
  | startCompleted =>
    simp [GrpcStream.handleCompletion, GrpcStream.OnStart, GrpcStream.Execute, h]
  | readCompleted m =>
    simp [GrpcStream.handleCompletion, GrpcStream.OnRead, GrpcStream.Execute, h]
  | writeCompleted =>
    cases hop : (s.buffered_writer_.DequeueNextWrite).1 <;>
      simp [GrpcStream.handleCompletion, GrpcStream.OnWrite, GrpcStream.Execute, hop, h]
  | failed =>
    cases hf : s.is_finishing_ <;>
      simp [GrpcStream.handleCompletion, GrpcStream.OnOperationFailed, GrpcStream.Execute, hf, h]
  | serverFinished =>
    simp [GrpcStream.handleCompletion, GrpcStream.OnFinishedByServer, h]

theorem runCompletions_silent (es : List CompletionEvent) :
    ∀ s : GrpcStream, s.observer_ = none → (GrpcStream.runCompletions s es).2 = [] := by
  induction es with
  | nil => intro s _; rfl
  | cons e es ih =>
    intro s h
    obtain ⟨h1, h2⟩ := handleCompletion_silent s e h
    simp [GrpcStream.runCompletions, h1, ih _ h2]

theorem onError_clears_observer (s : GrpcStream) (e : CompletionEvent)
    (h : Notification.onError ∈ (s.handleCompletion e).2) :
    (s.handleCompletion e).1.observer_ = none := by
  cases e with
  | startCompleted =>
    cases ho : s.observer_ <;>
      simp_all [GrpcStream.handleCompletion, GrpcStream.OnStart, GrpcStream.Execute]
  | readCompleted m =>
    cases ho : s.observer_ <;>
      simp_all [GrpcStream.handleCompletion, GrpcStream.OnRead, GrpcStream.Execute]
  | writeCompleted =>
    cases hop : (s.buffered_writer_.DequeueNextWrite).1 <;>
      simp_all [GrpcStream.handleCompletion, GrpcStream.OnWrite, GrpcStream.Execute]
  | failed =>
    cases hf : s.is_finishing_ <;>
      simp_all [GrpcStream.handleCompletion, GrpcStream.OnOperationFailed, GrpcStream.Execute]
  | serverFinished =>
    cases ho : s.observer_ <;>
      simp_all [GrpcStream.handleCompletion, GrpcStream.OnFinishedByServer]

/-- C1: `Finish()` returns only after the in-flight operation set is empty,
and no operation completion notification occurs after `Finish()` returns:
the post-state of `Finish` has an empty `operations_` set, and every
completion handler invoked on it emits no notification. -/
theorem finish_drains_and_silences (s : GrpcStream) :
    (s.Finish).1.operations_ = [] ∧
    ∀ e : CompletionEvent, ((s.Finish).1.handleCompletion e).2 = [] := by
  constructor
  · simp [finish_eq]
  · intro e
    have h : (s.Finish).1.observer_ = none := by simp [finish_eq]
    exact (handleCompletion_silent _ e h).1

/-- C2: for every valid sequence of `EnqueueWrite` and write-completion
events starting from a fresh `BufferedWriter`, the number of write operations
in flight on the stream is 0 or 1 at every observed instant. -/
theorem buffered_writer_at_most_one_active (es : List WriterEvent)
    (h : validFrom WriterRun.init es = true) :
    activeCount (WriterRun.init.run es) = 0 ∨ activeCount (WriterRun.init.run es) = 1 := by
  obtain ⟨⟨hlen, _⟩, _⟩ := writerInv_run es WriterRun.init writerInv_init h
  cases hact : (WriterRun.init.run es).bw.has_active_write_ with
  | false => left; simp only [activeCount]; rw [hlen, hact]; simp
  | true => right; simp only [activeCount]; rw [hlen, hact]; simp

theorem buffered_writer_at_most_one_active_witness :
    validFrom WriterRun.init [.enq 0, .enq 1, .complete] = true ∧
    (activeCount (WriterRun.init.run [.enq 0, .enq 1, .complete]) = 0 ∨
     activeCount (WriterRun.init.run [.enq 0, .enq 1, .complete]) = 1) :=
  ⟨by decide, buffered_writer_at_most_one_active [.enq 0, .enq 1, .complete] (by decide)⟩

/-- C3: for every valid sequence of `EnqueueWrite` and write-completion
events, the payloads for which write operations have been issued, followed by
the payloads still buffered, are exactly the payloads passed to
`EnqueueWrite`, in call order: writes are issued in exactly the order
enqueued, with no reordering. -/
theorem buffered_writer_preserves_order (es : List WriterEvent)
    (h : validFrom WriterRun.init es = true) :
    (WriterRun.init.run es).issued ++ (WriterRun.init.run es).bw.queue_ = enqueuedOf es := by
  have h2 := (writerInv_run es WriterRun.init writerInv_init h).2
  simpa [WriterRun.init, BufferedWriter.init] using h2

theorem buffered_writer_preserves_order_witness :
    validFrom WriterRun.init [.enq 5, .enq 7, .complete, .enq 9] = true ∧
    (WriterRun.init.run [.enq 5, .enq 7, .complete, .enq 9]).issued ++
      (WriterRun.init.run [.enq 5, .enq 7, .complete, .enq 9]).bw.queue_ =
      enqueuedOf [.enq 5, .enq 7, .complete, .enq 9] :=
  ⟨by decide, buffered_writer_preserves_order [.enq 5, .enq 7, .complete, .enq 9] (by decide)⟩

/-- C4: during destruction of a `GrpcStream`, the reader-writer handle
`call_` is released strictly before the execution/cancellation context
`context_`, because `context_` is declared before `call_` and C++ destroys
data members in reverse declaration order. -/
theorem call_destroyed_before_context :
    destructionIndex GrpcStreamMember.call_ < destructionIndex GrpcStreamMember.context_ := by
  decide

/-- C5: once an on-error notification fires for a stream instance, no further
listener notification of any kind (on-open, on-read or on-error) ever fires
for that instance: any completion whose dispatch emitted on-error leaves the
observer association cleared, and every subsequent completion sequence emits
nothing. -/
theorem error_notification_terminal (s : GrpcStream) (e : CompletionEvent)
    (es : List CompletionEvent)
    (h : Notification.onError ∈ (s.handleCompletion e).2) :
    (GrpcStream.runCompletions (s.handleCompletion e).1 es).2 = [] :=
  runCompletions_silent es _ (onError_clears_observer s e h)

theorem error_notification_terminal_witness :
    Notification.onError ∈
      (GrpcStream.handleCompletion
        { observer_ := some (), buffered_writer_ := BufferedWriter.init,
          operations_ := [.opFinish], is_finishing_ := true } .serverFinished).2 ∧
    (GrpcStream.runCompletions
      (GrpcStream.handleCompletion
        { observer_ := some (), buffered_writer_ := BufferedWriter.init,
          operations_ := [.opFinish], is_finishing_ := true } .serverFinished).1
      [.startCompleted, .readCompleted 3, .failed, .serverFinished]).2 = [] :=
  ⟨by decide,
   error_notification_terminal
     { observer_ := some (), buffered_writer_ := BufferedWriter.init,
       operations_ := [.opFinish], is_finishing_ := true } .serverFinished
     [.startCompleted, .readCompleted 3, .failed, .serverFinished] (by decide)⟩

/-- C6: a locally initiated `Finish()` never produces any listener
notification, regardless of how many operations were in flight when it was
called: the listener association is cleared before the blocking drain, so the
drain emits nothing. -/
theorem finish_produces_no_notification (s : GrpcStream) :
    (s.Finish).2 = [] := by
  simp [finish_eq]

/-- C7: `WriteAndFinish(payload)` returns `true` exactly when the write
operation for the payload completed successfully before cancellation was
issued, and in both outcomes the stream is fully finished when the call
returns: the in-flight operation set is empty and `IsFinished` holds. -/
theorem writeAndFinish_reports_write_and_drains (s : GrpcStream) (m : ByteBuffer)
    (writeCameThrough : Bool) :
    (s.WriteAndFinish m writeCameThrough).1 = writeCameThrough ∧
    (s.WriteAndFinish m writeCameThrough).2.1.operations_ = [] ∧
    (s.WriteAndFinish m writeCameThrough).2.1.IsFinished = true := by
  cases writeCameThrough <;>
    simp [GrpcStream.WriteAndFinish, finish_eq, GrpcStream.IsFinished]

/-- C8: `IsFinished()` returns true exactly when the listener association has
been cleared (the observer reference is null), and false otherwise. -/
theorem isFinished_iff_observer_cleared (s : GrpcStream) :
    s.IsFinished = true ↔ s.observer_ = none := by
  simp [GrpcStream.IsFinished, Option.isNone_iff_eq_none]

/-- C9: for every reachable `BufferedWriter` state, `EnqueueWrite(payload)`
either issues a write operation for that very payload immediately (when no
write is active: the returned operation carries the payload, the queue stays
empty and the buffer becomes active), or returns no operation and leaves the
payload queued at the tail (when a write is already active). -/
theorem enqueueWrite_active_dichotomy (es : List WriterEvent) (p : ByteBuffer)
    (h : validFrom WriterRun.init es = true) :
    ((WriterRun.init.run es).bw.has_active_write_ = false →
      (WriterRun.init.run es).bw.EnqueueWrite p =
        (some { payload := p }, { queue_ := [], has_active_write_ := true })) ∧
    ((WriterRun.init.run es).bw.has_active_write_ = true →
      (WriterRun.init.run es).bw.EnqueueWrite p =
        (none, { queue_ := (WriterRun.init.run es).bw.queue_ ++ [p],
                 has_active_write_ := true })) := by
  obtain ⟨⟨_, hidle⟩, _⟩ := writerInv_run es WriterRun.init writerInv_init h
  constructor
  · intro hact
    have hq := hidle hact
    simp [BufferedWriter.EnqueueWrite, BufferedWriter.TryStartWrite, hq, hact]
  · intro hact
    simp [BufferedWriter.EnqueueWrite, BufferedWriter.TryStartWrite, hact]

theorem enqueueWrite_active_dichotomy_witness :
    validFrom WriterRun.init [.enq 4] = true ∧
    (((WriterRun.init.run [.enq 4]).bw.has_active_write_ = false →
      (WriterRun.init.run [.enq 4]).bw.EnqueueWrite 9 =
        (some { payload := 9 }, { queue_ := [], has_active_write_ := true })) ∧
     ((WriterRun.init.run [.enq 4]).bw.has_active_write_ = true →
      (WriterRun.init.run [.enq 4]).bw.EnqueueWrite 9 =
        (none, { queue_ := (WriterRun.init.run [.enq 4]).bw.queue_ ++ [9],
                 has_active_write_ := true }))) :=
  ⟨by decide, enqueueWrite_active_dichotomy [.enq 4] 9 (by decide)⟩

/-- C10: on a freshly constructed `BufferedWriter`, the first `EnqueueWrite`
always issues its write operation immediately and returns it (non-null); the
first write of a stream is never buffered. -/
theorem first_enqueueWrite_issues_immediately (p : ByteBuffer) :
    BufferedWriter.init.EnqueueWrite p =
      (some { payload := p }, { queue_ := [], has_active_write_ := true }) := by
  simp [BufferedWriter.init, BufferedWriter.EnqueueWrite, BufferedWriter.TryStartWrite]

end GrpcStreamVerif
